import Mathlib

/-!
Verification of the configuration-reconciliation and measurement-publishing
engine of the Trixel contribution client
(custom_components/trixel_contribution_client).

The definitions below are a shallow embedding of
`integration_polling_client.py` and `const.py`:

* `MeasurementType`, `AnnotatedSensor` — the sensor data model
  (`trixelserviceclient.schema.MeasurementType` restricted to the two
  types the integration maps, and the `AnnotatedSensor` dataclass).
* `computeDiff` / `applyDiff` / `reconcile` — the reconciliation step of
  `IntegrationPollingClient.create` (lines 119–159): the diff loop over
  `MeasurementType`, the `list.remove`-based orphan removal and the
  appending of new sensors.
* `shouldEmit` and the `Cache` association list — the
  `_last_timestamps` dictionary and the dedup check of `_get_updates`
  (lines 247–256).
* `processSensor` / `getUpdates` — the `_get_updates` loop body
  (lines 195–258), with Python `dict[...]` access on a missing key
  modelled as `Except.error` (a raised `KeyError` aborts the call).
* `create` — `IntegrationPollingClient.create` (lines 88–188) with the
  store accesses of the call recorded as a trace of `StoreOp`s.

Machine integers are modelled as `Nat`/`Int`; sensor values as `ℚ`.
-/

/-- The two measurement types the integration maps (`MEASUREMENT_TYPE_MAPPING`). -/
inductive MeasurementType where
  | ambientTemperature
  | relativeHumidity
deriving DecidableEq, Repr

/-- Iteration order of `for measurement_type in MeasurementType` (fixed enumeration order). -/
def MeasurementType.all : List MeasurementType :=
  [.ambientTemperature, .relativeHumidity]

/-- The `AnnotatedSensor` dataclass: a `Sensor` plus an optional `entity_id` link. -/
structure AnnotatedSensor where
  measurement_type : MeasurementType
  sensor_id : Nat
  entity_id : Option String
deriving DecidableEq, Repr

/-- Key under which reconciliation matches sensors: the (measurementType, entityId) pair. -/
def sensorKey (s : AnnotatedSensor) : MeasurementType × Option String :=
  (s.measurement_type, s.entity_id)

/-- Python membership test `sensor.entity_id in entity_ids` for an optional entity id:
`None` is never a member of a list of strings. -/
def entityIdMem (oe : Option String) (eids : List String) : Bool :=
  match oe with
  | some e => eids.contains e
  | none => false

/-- The inner `entity_used` scan of `create`: is there an existing sensor with
this (measurement type, entity id) pair? -/
def entityUsed (sensors : List AnnotatedSensor) (mt : MeasurementType) (eid : String) : Bool :=
  sensors.any (fun s => (s.measurement_type == mt) && (s.entity_id == some eid))

/-- New sensors collected for one measurement type: desired entity ids that are
not yet used, in desired-list order. -/
def newFor (sensors : List AnnotatedSensor) (mt : MeasurementType) (eids : List String) :
    List (MeasurementType × String) :=
  (eids.filter (fun eid => !entityUsed sensors mt eid)).map (fun eid => (mt, eid))

/-- The orphan list comprehension of `create`: one entry per existing sensor,
`some s` when `s` is of this measurement type and its entity id is no longer
desired, `none` otherwise. -/
def orphanFor (sensors : List AnnotatedSensor) (mt : MeasurementType) (eids : List String) :
    List (Option AnnotatedSensor) :=
  sensors.map (fun s =>
    if (s.measurement_type == mt) && !entityIdMem s.entity_id eids then some s else none)

/-- The diff loop of `create` (lines 122–144): fold over all measurement types,
accumulating `new_sensors` and `orphaned_sensors` against the unmodified sensor list. -/
def computeDiff (sensors : List AnnotatedSensor) (desired : MeasurementType → List String) :
    List (MeasurementType × String) × List (Option AnnotatedSensor) :=
  MeasurementType.all.foldl
    (fun acc mt =>
      (acc.1 ++ newFor sensors mt (desired mt), acc.2 ++ orphanFor sensors mt (desired mt)))
    ([], [])

/-- The orphan-removal loop of `create` (lines 148–150): `list.remove` deletes the
first occurrence equal to the orphan; `None` entries are skipped. -/
def eraseFold (sensors : List AnnotatedSensor) (orphans : List (Option AnnotatedSensor)) :
    List AnnotatedSensor :=
  orphans.foldl
    (fun acc o => match o with | some s => acc.erase s | none => acc)
    sensors

/-- Apply a computed diff: remove orphans (first-occurrence `list.remove` semantics),
then append a basic `AnnotatedSensor` for every new (type, entity id) pair
(lines 146–159; a fresh sensor has no remote-assigned sensor id yet). -/
def applyDiff (sensors : List AnnotatedSensor)
    (diff : List (MeasurementType × String) × List (Option AnnotatedSensor)) :
    List AnnotatedSensor :=
  eraseFold sensors diff.2 ++
    diff.1.map (fun p => { measurement_type := p.1, sensor_id := 0, entity_id := some p.2 })

/-- One full reconciliation step of `create`: compute the diff against the current
sensor list and apply it. -/
def reconcile (sensors : List AnnotatedSensor) (desired : MeasurementType → List String) :
    List AnnotatedSensor :=
  applyDiff sensors (computeDiff sensors desired)

/-- A sensor is an orphan for a desired mapping when its entity id is no longer
desired under its own measurement type. -/
def isOrphan (desired : MeasurementType → List String) (s : AnnotatedSensor) : Bool :=
  !entityIdMem s.entity_id (desired s.measurement_type)

/-- The `_last_timestamps` dictionary: sensor id to last emitted timestamp (seconds). -/
abbrev Cache := List (Nat × Int)

/-- A fresh client has an empty `_last_timestamps` dictionary. -/
def emptyCache : Cache := []

/-- Dictionary read `self._last_timestamps.get(sensor_id, 0)`. -/
def cacheGet (c : Cache) (sid : Nat) : Int :=
  (c.lookup sid).getD 0

/-- Dictionary write `self._last_timestamps[sensor_id] = ts`: update in place, or append. -/
def cacheSet : Cache → Nat → Int → Cache
  | [], sid, ts => [(sid, ts)]
  | (k, v) :: rest, sid, ts =>
    if k = sid then (k, ts) :: rest else (k, v) :: cacheSet rest sid ts

/-- The dedup decision of `_get_updates` (lines 250–252): emit exactly when the
timestamp differs from the last recorded one (default 0), recording it on emit. -/
def shouldEmit (c : Cache) (sid : Nat) (ts : Int) : Bool × Cache :=
  if ts ≠ cacheGet c sid then (true, cacheSet c sid ts) else (false, c)

/-- Feed a sequence of timestamps for one sensor id through the dedup cache,
collecting the emit decisions. -/
def feedTimestamps (c : Cache) (sid : Nat) : List Int → List Bool
  | [] => []
  | ts :: rest =>
    let r := shouldEmit c sid ts
    r.1 :: feedTimestamps r.2 sid rest

/-- Raw value of a Home Assistant state: the sentinels "unavailable" and "unknown",
or a numeric reading. -/
inductive StateVal where
  | unavailable
  | unknown
  | val (v : ℚ)
deriving DecidableEq, Repr

/-- A Home Assistant entity state as read by `_get_updates`: the state value, the
attribute dictionary and the `last_reported` time (already reduced to whole
UTC seconds, as `_get_updates` rounds it). -/
structure HAState where
  state : StateVal
  attributes : List (String × String)
  last_reported : Int
deriving DecidableEq, Repr

/-- Attribute key `ATTR_DEVICE_CLASS`. -/
def attrDeviceClass : String := "device_class"

/-- Attribute key `ATTR_UNIT_OF_MEASUREMENT`. -/
def attrUnitOfMeasurement : String := "unit_of_measurement"

/-- The string value of `SensorDeviceClass.TEMPERATURE`. -/
def deviceClassTemperature : String := "temperature"

/-- The string value of `SensorDeviceClass.HUMIDITY`. -/
def deviceClassHumidity : String := "humidity"

/-- `MEASUREMENT_TYPE_DEVICE_CLASS_MAPPING` from `const.py`. -/
def deviceClassFor : MeasurementType → String
  | .ambientTemperature => deviceClassTemperature
  | .relativeHumidity => deviceClassHumidity

/-- The string value of `UnitOfTemperature.CELSIUS`. -/
def unitCelsius : String := "°C"

/-- The string value of `UnitOfTemperature.FAHRENHEIT`. -/
def unitFahrenheit : String := "°F"

/-- The string value of `UnitOfTemperature.KELVIN`. -/
def unitKelvin : String := "K"

/-- Membership domain of the check `... not in UnitOfTemperature`. -/
def tempUnits : List String := [unitCelsius, unitFahrenheit, unitKelvin]

/-- Modelled from the spec: Home Assistant's `TemperatureConverter.convert` (an
external collaborator whose source is not in this repository) converts a present
value to Celsius by the standard linear/affine unit conversion; a Celsius value
passes through unchanged. -/
def tempConvert (v : ℚ) (u : String) : ℚ :=
  if u = unitFahrenheit then (v - 32) * 5 / 9
  else if u = unitKelvin then v - 27315 / 100
  else v

/-- The host state registry, `hass.states`: entity id to current state. -/
abbrev EntityStates := String → Option HAState

/-- State read `self.hass.states.get(sensor.entity_id)`; a sensor without a linked
entity id has no retrievable state. -/
def statesGet (env : EntityStates) (eid : Option String) : Option HAState :=
  match eid with
  | some e => env e
  | none => none

/-- The value extraction of `_get_updates` line 213: sentinels become `None`,
anything else is the reading itself. -/
def rawValue : StateVal → Option ℚ
  | .unavailable => none
  | .unknown => none
  | .val v => some v

/-- The per-cycle update batch built by `_get_updates`: a dictionary keyed by
sensor id, holding (timestamp, value-or-null). -/
abbrev UpdateDict := List (Nat × (Int × Option ℚ))

/-- Python dictionary assignment `updates[k] = v`: replace in place if the key
exists, append otherwise. -/
def dictInsert : UpdateDict → Nat → Int × Option ℚ → UpdateDict
  | [], k, v => [(k, v)]
  | (k0, v0) :: rest, k, v =>
    if k0 = k then (k0, v) :: rest else (k0, v0) :: dictInsert rest k v

/-- One iteration of the `_get_updates` loop (lines 203–256) for one sensor:
either a raised `KeyError` on a missing attribute key (which aborts the whole
call), or the possibly-updated dedup cache together with the entry to add to
the batch (`none` when the sensor is skipped this cycle). -/
def processSensor (env : EntityStates) (cache : Cache) (s : AnnotatedSensor) :
    Except String (Cache × Option (Nat × (Int × Option ℚ))) :=
  match statesGet env s.entity_id with
  | none => .ok (cache, none)
  | some st =>
    let value := rawValue st.state
    match st.attributes.lookup attrDeviceClass with
    | none => .error attrDeviceClass
    | some dc =>
      if dc ≠ deviceClassFor s.measurement_type then .ok (cache, none)
      else
        let unitRecognized : Except String Bool :=
          if s.measurement_type = .ambientTemperature then
            match st.attributes.lookup attrUnitOfMeasurement with
            | none => .error attrUnitOfMeasurement
            | some u => .ok (tempUnits.contains u)
          else .ok true
        match unitRecognized with
        | .error e => .error e
        | .ok false => .ok (cache, none)
        | .ok true =>
          let converted : Except String (Option ℚ) :=
            if dc = deviceClassTemperature then
              match value with
              | some v =>
                match st.attributes.lookup attrUnitOfMeasurement with
                | none => .error attrUnitOfMeasurement
                | some u => .ok (some (tempConvert v u))
              | none => .ok none
            else .ok value
          match converted with
          | .error e => .error e
          | .ok value2 =>
            match shouldEmit cache s.sensor_id st.last_reported with
            | (true, c2) => .ok (c2, some (s.sensor_id, (st.last_reported, value2)))
            | (false, c2) => .ok (c2, none)

/-- The `_get_updates` loop over the configured sensors, threading the dedup
cache and the batch dictionary; a raised `KeyError` aborts the whole call. -/
def getUpdatesAux (env : EntityStates) :
    List AnnotatedSensor → Cache → UpdateDict → Except String (UpdateDict × Cache)
  | [], cache, updates => .ok (updates, cache)
  | s :: rest, cache, updates =>
    match processSensor env cache s with
    | .error e => .error e
    | .ok (c2, none) => getUpdatesAux env rest c2 updates
    | .ok (c2, some (k, v)) => getUpdatesAux env rest c2 (dictInsert updates k v)

/-- `IntegrationPollingClient._get_updates`: build one polling cycle's batch. -/
def getUpdates (env : EntityStates) (sensors : List AnnotatedSensor) (cache : Cache) :
    Except String (UpdateDict × Cache) :=
  getUpdatesAux env sensors cache []

/-- Geographic coordinate of the client configuration. -/
structure Coordinate where
  latitude : ℚ
  longitude : ℚ
deriving DecidableEq, Repr

/-- The durable `ClientConfig` document handled by `create` and the storage helper. -/
structure ClientConfig where
  location : Coordinate
  tls_host : String
  k : Nat
  max_depth : Nat
  sensors : List AnnotatedSensor
deriving DecidableEq, Repr

/-- The creation-time `data` dictionary, carrying `CONF_TLS_HOST`. -/
structure DataInput where
  trixel_lookup_service_host : String
deriving DecidableEq, Repr

/-- The `options` dictionary consumed by `create`: `CONF_K_REQUIREMENT`,
`CONF_MAX_TRIXEL_DEPTH` and one entity-id list per measurement type
(`MEASUREMENT_TYPE_MAPPING`). -/
structure OptionsInput where
  k_privacy : Nat
  maximum_trixel_depth : Nat
  outdoor_temperature_sensors : List String
  outdoor_relative_humidity_sensors : List String
deriving DecidableEq, Repr

/-- The desired entity-id list per measurement type, read from the options via
`MEASUREMENT_TYPE_MAPPING`. -/
def optionsDesired (o : OptionsInput) : MeasurementType → List String
  | .ambientTemperature => o.outdoor_temperature_sensors
  | .relativeHumidity => o.outdoor_relative_humidity_sensors

/-- Placeholder onboarding latitude `DEFAULT_HOME_LATITUDE` from `const.py`. -/
def DEFAULT_HOME_LATITUDE : ℚ := 523731339 / 10000000

/-- Placeholder onboarding longitude `DEFAULT_HOME_LONGITUDE` from `const.py`. -/
def DEFAULT_HOME_LONGITUDE : ℚ := 48903147 / 10000000

/-- Accesses of the durable configuration store performed during a call. -/
inductive StoreOp where
  | load
  | save (doc : ClientConfig)
  | remove
deriving DecidableEq, Repr

/-- The host context `create` reads: the configured home coordinate and the
persisted configuration document the store would return (`none` when the helper
storage holds no document, which `load_client_config` turns into an error). -/
structure CreateEnv where
  latitude : ℚ
  longitude : ℚ
  stored : Option ClientConfig
deriving DecidableEq, Repr

/-- Errors raised by `create`. -/
inductive CreateError where
  | noHome
  | noExistingConfiguration
deriving DecidableEq, Repr

/-- The no-usable-location guard of `create` (lines 100–103): both coordinates
falsy, or both equal to the onboarding placeholder. -/
def noHomeGuard (env : CreateEnv) : Prop :=
  (env.latitude = 0 ∧ env.longitude = 0) ∨
    (env.latitude = DEFAULT_HOME_LATITUDE ∧ env.longitude = DEFAULT_HOME_LONGITUDE)

instance (env : CreateEnv) : Decidable (noHomeGuard env) := by
  unfold noHomeGuard; infer_instance

/-- The fresh-configuration sensor list of `create` (lines 166–176): iterate
`MEASUREMENT_TYPE_MAPPING` in insertion order and add a basic sensor per
desired entity id. -/
def freshSensors (o : OptionsInput) : List AnnotatedSensor :=
  MeasurementType.all.foldl
    (fun acc mt =>
      acc ++ (optionsDesired o mt).map
        (fun e => { measurement_type := mt, sensor_id := 0, entity_id := some e }))
    []

/-- `IntegrationPollingClient.create` (lines 88–188): the resulting client
configuration (or raised error), paired with the trace of configuration-store
accesses the call performs, in order. -/
def create (env : CreateEnv) (data : Option DataInput) (options : Option OptionsInput) :
    Except CreateError ClientConfig × List StoreOp :=
  if noHomeGuard env then
    (.error .noHome, [])
  else
    match env.stored with
    | some cfg =>
      let cfg1 : ClientConfig :=
        { cfg with location := { latitude := env.latitude, longitude := env.longitude } }
      match options with
      | none => (.ok cfg1, [.load])
      | some o =>
        let cfg2 : ClientConfig :=
          { cfg1 with
            k := o.k_privacy
            max_depth := o.maximum_trixel_depth
            sensors := reconcile cfg1.sensors (optionsDesired o) }
        (.ok cfg2, [.load])
    | none =>
      match data, options with
      | some d, some o =>
        (.ok
          { location := { latitude := env.latitude, longitude := env.longitude }
            tls_host := d.trixel_lookup_service_host
            k := o.k_privacy
            max_depth := o.maximum_trixel_depth
            sensors := freshSensors o }, [.load])
      | _, _ => (.error .noExistingConfiguration, [.load])

/-- `IntegrationPollingClient._persist_config` (lines 190–193): the only place
that saves the configuration document; its store trace is a single save. -/
def persistConfig (cfg : ClientConfig) : List StoreOp :=
  [.save cfg]

/-- Attribute keys `_get_updates` reads are present on a state: the device class
always, and the unit of measurement whenever the sensor contributes ambient
temperature (otherwise the dictionary accesses of lines 216, 227 and 243 raise). -/
def attrsPresent (env : EntityStates) (s : AnnotatedSensor) : Prop :=
  ∀ st, statesGet env s.entity_id = some st →
    (st.attributes.lookup attrDeviceClass).isSome = true ∧
    (s.measurement_type = .ambientTemperature →
      (st.attributes.lookup attrUnitOfMeasurement).isSome = true)

/-- Concrete humidity state with all read attribute keys present. -/
def stGood : HAState :=
  { state := .val 50, attributes := [(attrDeviceClass, deviceClassHumidity)],
    last_reported := 100 }

/-- Concrete state whose attribute dictionary is empty. -/
def stBad : HAState :=
  { state := .val 1, attributes := [], last_reported := 100 }

/-- Concrete ambient-temperature state carrying a sentinel value. -/
def stSentinel : HAState :=
  { state := .unavailable,
    attributes := [(attrDeviceClass, deviceClassTemperature),
                   (attrUnitOfMeasurement, unitCelsius)],
    last_reported := 100 }

/-- Concrete temperature state with an unrecognized unit. -/
def stWrongUnit : HAState :=
  { state := .val 12,
    attributes := [(attrDeviceClass, deviceClassTemperature),
                   (attrUnitOfMeasurement, "hPa")],
    last_reported := 100 }

/-- Concrete temperature state of 32 degrees Fahrenheit. -/
def stFahrenheit : HAState :=
  { state := .val 32,
    attributes := [(attrDeviceClass, deviceClassTemperature),
                   (attrUnitOfMeasurement, unitFahrenheit)],
    last_reported := 200 }

/-- Concrete humidity state whose reading carries timestamp 0. -/
def stZeroTs : HAState :=
  { state := .val 55, attributes := [(attrDeviceClass, deviceClassHumidity)],
    last_reported := 0 }

/-- Concrete state registry with one well-formed and one attribute-less entity. -/
def envTwoSensors : EntityStates := fun e =>
  if e = "sensor.good" then some stGood
  else if e = "sensor.bad" then some stBad
  else none

/-- Concrete state registry holding only the sentinel-valued temperature entity. -/
def envSentinel : EntityStates := fun e =>
  if e = "sensor.temp" then some stSentinel else none

/-- Concrete state registry holding only the wrong-unit temperature entity. -/
def envWrongUnit : EntityStates := fun e =>
  if e = "sensor.temp" then some stWrongUnit else none

/-- Concrete state registry holding only the Fahrenheit temperature entity. -/
def envFahrenheit : EntityStates := fun e =>
  if e = "sensor.temp" then some stFahrenheit else none

/-- Concrete state registry holding only the timestamp-0 humidity entity. -/
def envZeroTs : EntityStates := fun e =>
  if e = "sensor.h" then some stZeroTs else none

/-- Concrete humidity sensor linked to the well-formed entity. -/
def sensorGood : AnnotatedSensor :=
  { measurement_type := .relativeHumidity, sensor_id := 1, entity_id := some "sensor.good" }

/-- Concrete humidity sensor linked to the attribute-less entity. -/
def sensorBad : AnnotatedSensor :=
  { measurement_type := .relativeHumidity, sensor_id := 2, entity_id := some "sensor.bad" }

/-- Concrete humidity sensor linked to an entity with no retrievable state. -/
def sensorMissing : AnnotatedSensor :=
  { measurement_type := .relativeHumidity, sensor_id := 3, entity_id := some "sensor.missing" }

/-- Concrete ambient-temperature sensor. -/
def sensorTemp : AnnotatedSensor :=
  { measurement_type := .ambientTemperature, sensor_id := 5, entity_id := some "sensor.temp" }

/-- Concrete humidity sensor linked to the timestamp-0 entity. -/
def sensorHum : AnnotatedSensor :=
  { measurement_type := .relativeHumidity, sensor_id := 9, entity_id := some "sensor.h" }

/-- Concrete persisted configuration with no sensors. -/
def storedConfig : ClientConfig :=
  { location := { latitude := 9, longitude := 9 }, tls_host := "tls.example",
    k := 2, max_depth := 10, sensors := [] }

/-- Concrete host context with a usable location and a persisted configuration. -/
def envStored : CreateEnv :=
  { latitude := 1, longitude := 2, stored := some storedConfig }

/-- Concrete host context with a usable location and empty storage. -/
def envEmptyStore : CreateEnv :=
  { latitude := 1, longitude := 2, stored := none }

/-- Concrete host context with no location configured. -/
def envNoHome : CreateEnv :=
  { latitude := 0, longitude := 0, stored := some storedConfig }

/-- Concrete creation data. -/
def dataA : DataInput := { trixel_lookup_service_host := "tls.example" }

/-- Concrete options selecting one temperature entity. -/
def optionsA : OptionsInput :=
  { k_privacy := 3, maximum_trixel_depth := 4,
    outdoor_temperature_sensors := ["sensor.a"],
    outdoor_relative_humidity_sensors := [] }

/-! ### Helper lemmas about the dedup cache -/

theorem cacheGet_cacheSet_self (c : Cache) (sid : Nat) (ts : Int) :
    cacheGet (cacheSet c sid ts) sid = ts := by
  induction c with
  | nil => simp [cacheSet, cacheGet, List.lookup]
  | cons kv rest ih =>
    obtain ⟨k, v⟩ := kv
    by_cases h : k = sid
    · subst h
      simp [cacheSet, cacheGet, List.lookup]
    · have hbeq : (sid == k) = false := by simp [Ne.symm h]
      simp only [cacheSet, if_neg h]
      simpa [cacheGet, List.lookup, hbeq] using ih

/-- Claim C3: the dedup cache emits a reading exactly when its timestamp differs
from the last recorded timestamp for that sensor id (default 0 for a never-seen
sensor), recording the timestamp when it emits; feeding [100, 100, 101, 100]
for one sensor yields the emit decisions [true, false, true, true]. -/
theorem dedup_emit_rule :
    (∀ sid, cacheGet emptyCache sid = 0) ∧
    (∀ c sid ts, shouldEmit c sid ts =
      (decide (ts ≠ cacheGet c sid),
        if ts = cacheGet c sid then c else cacheSet c sid ts)) ∧
    (∀ c sid ts, cacheGet (cacheSet c sid ts) sid = ts) ∧
    feedTimestamps emptyCache 7 [100, 100, 101, 100] = [true, false, true, true] := by
  refine ⟨fun sid => rfl, fun c sid ts => ?_, cacheGet_cacheSet_self, by decide⟩
  by_cases h : ts = cacheGet c sid <;> simp [shouldEmit, h]

theorem shouldEmit_empty_zero (sid : Nat) : shouldEmit emptyCache sid 0 = (false, emptyCache) := by
  simp [shouldEmit, cacheGet, emptyCache, List.lookup]

/-- Claim C10: because the never-seen default of the last-seen cache is 0, a
sensor whose very first reading carries timestamp exactly 0 is suppressed and
stays suppressed until a reading with a different timestamp arrives; a
one-sensor batch whose state has timestamp 0 comes back empty. -/
theorem zero_timestamp_first_reading_suppressed :
    (∀ sid n, feedTimestamps emptyCache sid (List.replicate n 0) = List.replicate n false) ∧
    (∀ sid n ts, ts ≠ 0 →
      feedTimestamps emptyCache sid (List.replicate n 0 ++ [ts]) =
        List.replicate n false ++ [true]) ∧
    getUpdates envZeroTs [sensorHum] emptyCache = .ok ([], emptyCache) := by
  have key : ∀ sid (l : List Int),
      feedTimestamps emptyCache sid (0 :: l) = false :: feedTimestamps emptyCache sid l := by
    intro sid l
    simp [feedTimestamps, shouldEmit_empty_zero]
  refine ⟨fun sid n => ?_, fun sid n ts hts => ?_, rfl⟩
  · induction n with
    | zero => rfl
    | succ m ih => simp [List.replicate_succ, key, ih]
  · induction n with
    | zero =>
      simp [feedTimestamps, shouldEmit, cacheGet, emptyCache, List.lookup, hts]
    | succ m ih => simp [List.replicate_succ, key, ih]

theorem zero_timestamp_first_reading_suppressed_witness :
    feedTimestamps emptyCache 3 (List.replicate 2 0 ++ [5]) =
      List.replicate 2 false ++ [true] :=
  zero_timestamp_first_reading_suppressed.2.1 3 2 5 (by decide)

/-- Claim C7: for every host context whose location is unset or equal to the
onboarding placeholder coordinate, `create` fails with `NoHomeError` before any
access to the configuration store, regardless of the data and options arguments. -/
theorem no_home_error_before_store (env : CreateEnv) (data : Option DataInput)
    (options : Option OptionsInput) (h : noHomeGuard env) :
    create env data options = (.error .noHome, []) := by
  simp [create, h]

theorem no_home_error_before_store_witness :
    create envNoHome (some dataA) (some optionsA) = (.error .noHome, []) :=
  no_home_error_before_store envNoHome (some dataA) (some optionsA) (by decide)

/-- Claim C8: for every host context with a usable location, if no persisted
configuration exists and neither data nor options are supplied, `create` fails
with `NoExistingConfigurationError` (no fresh configuration is built; the only
store access is the failed load). -/
theorem no_existing_configuration_error (env : CreateEnv)
    (h : ¬ noHomeGuard env) (hs : env.stored = none) :
    create env none none = (.error .noExistingConfiguration, [.load]) := by
  simp [create, h, hs]

theorem no_existing_configuration_error_witness :
    create envEmptyStore none none = (.error .noExistingConfiguration, [.load]) :=
  no_existing_configuration_error envEmptyStore
    (by norm_num [noHomeGuard, envEmptyStore, DEFAULT_HOME_LATITUDE, DEFAULT_HOME_LONGITUDE])
    rfl

theorem not_noHomeGuard_envStored : ¬ noHomeGuard envStored := by
  norm_num [noHomeGuard, envStored, DEFAULT_HOME_LATITUDE, DEFAULT_HOME_LONGITUDE]

/-- Claim C6 counterexample: a `create` call whose reconciliation adds a sensor
(the stored configuration has none, the options request one) returns the mutated
configuration while its store trace is exactly one load — no save is issued
before the reconciled client is handed to Start/Run. -/
theorem create_mutation_unpersisted :
    create envStored (some dataA) (some optionsA) =
      (.ok { location := { latitude := 1, longitude := 2 }, tls_host := "tls.example",
             k := 3, max_depth := 4,
             sensors := [{ measurement_type := .ambientTemperature, sensor_id := 0,
                           entity_id := some "sensor.a" }] },
        [StoreOp.load]) ∧
    [({ measurement_type := .ambientTemperature, sensor_id := 0,
        entity_id := some "sensor.a" } : AnnotatedSensor)] ≠ storedConfig.sensors := by
  constructor
  · simp only [create, if_neg not_noHomeGuard_envStored]
    rfl
  · simp [storedConfig]

/-- Claim C6 (amended): `create` itself never saves the configuration document:
every store trace it produces is free of save operations, so a reconciliation
result is handed onward unpersisted (saving is left to `_persist_config`, which
`create` does not invoke). -/
theorem create_never_saves (env : CreateEnv) (data : Option DataInput)
    (options : Option OptionsInput) (cfg : ClientConfig) :
    StoreOp.save cfg ∉ (create env data options).2 := by
  unfold create
  by_cases h : noHomeGuard env
  · simp [h]
  · simp only [if_neg h]
    cases env.stored <;> cases data <;> cases options <;> simp

/-- Claim C5: a sensor whose live state is the sentinel "unavailable" or
"unknown" is not rejected for the sentinel: the device-class and unit checks
still apply, and when they pass and the timestamp is not suppressed the
sensor's entry joins the batch with a null value. -/
theorem sentinel_value_reported_null (env : EntityStates) (c : Cache) (s : AnnotatedSensor)
    (st : HAState)
    (hst : statesGet env s.entity_id = some st)
    (hsent : st.state = .unavailable ∨ st.state = .unknown)
    (hdc : st.attributes.lookup attrDeviceClass = some (deviceClassFor s.measurement_type))
    (hu : s.measurement_type = .ambientTemperature →
      ∃ u, st.attributes.lookup attrUnitOfMeasurement = some u ∧ tempUnits.contains u = true)
    (hts : st.last_reported ≠ cacheGet c s.sensor_id) :
    processSensor env c s =
      .ok (cacheSet c s.sensor_id st.last_reported,
        some (s.sensor_id, (st.last_reported, none))) := by
  have hval : rawValue st.state = none := by
    rcases hsent with h | h <;> simp [h, rawValue]
  cases hmt : s.measurement_type with
  | ambientTemperature =>
    obtain ⟨u, hu1, hu2⟩ := hu hmt
    have hu2m : u ∈ tempUnits := by simpa using hu2
    simp [processSensor, hst, hdc, hval, hmt, hu1, hu2m, deviceClassFor, shouldEmit, hts]
  | relativeHumidity =>
    simp [processSensor, hst, hdc, hval, hmt, deviceClassFor, deviceClassHumidity,
      deviceClassTemperature, shouldEmit, hts]

theorem sentinel_value_reported_null_witness :
    processSensor envSentinel emptyCache sensorTemp =
      .ok (cacheSet emptyCache 5 100, some (5, (100, none))) :=
  sentinel_value_reported_null envSentinel emptyCache sensorTemp stSentinel rfl
    (Or.inl rfl) rfl (fun _ => ⟨unitCelsius, rfl, rfl⟩) (by decide)

/-- Claim C9: ambient-temperature canonicalization is deterministic and
unit-consistent: an unrecognized unit is always rejected (the sensor is omitted
from the batch) regardless of the numeric value, a present value with a
recognized unit is emitted converted to Celsius by the affine conversion, and
converting 32 degrees Fahrenheit yields 0 degrees Celsius (within 0.01). -/
theorem temperature_canonicalization :
    (∀ env c s st d u, s.measurement_type = .ambientTemperature →
      statesGet env s.entity_id = some st →
      st.attributes.lookup attrDeviceClass = some d →
      st.attributes.lookup attrUnitOfMeasurement = some u →
      tempUnits.contains u = false →
      processSensor env c s = .ok (c, none)) ∧
    (∀ env c s st u v, s.measurement_type = .ambientTemperature →
      statesGet env s.entity_id = some st →
      st.attributes.lookup attrDeviceClass = some deviceClassTemperature →
      st.attributes.lookup attrUnitOfMeasurement = some u →
      tempUnits.contains u = true →
      st.state = .val v →
      st.last_reported ≠ cacheGet c s.sensor_id →
      processSensor env c s =
        .ok (cacheSet c s.sensor_id st.last_reported,
          some (s.sensor_id, (st.last_reported, some (tempConvert v u))))) ∧
    tempConvert 32 unitFahrenheit = 0 ∧
    |tempConvert 32 unitFahrenheit - 0| ≤ 1 / 100 := by
  have hF : tempConvert 32 unitFahrenheit = 0 := by
    simp [tempConvert]
  refine ⟨?_, ?_, hF, by rw [hF]; norm_num⟩
  · intro env c s st d u hmt hst hdc hu hcont
    have hnm : ¬ u ∈ tempUnits := by simpa using hcont
    by_cases hd : d = deviceClassFor s.measurement_type
    · subst hd
      simp [processSensor, hst, hdc, hmt, deviceClassFor, hu, hnm]
    · simp [processSensor, hst, hdc, hmt, hd, deviceClassFor]
      intro hcontra
      exact absurd hcontra (by simpa [hmt, deviceClassFor] using hd)
  · intro env c s st u v hmt hst hdc hu hcont hval hts
    have hum : u ∈ tempUnits := by simpa using hcont
    simp [processSensor, hst, hdc, hmt, deviceClassFor, hu, hum, hval, rawValue,
      shouldEmit, hts]

theorem temperature_canonicalization_witness :
    processSensor envWrongUnit emptyCache sensorTemp = .ok (emptyCache, none) ∧
    processSensor envFahrenheit emptyCache sensorTemp =
      .ok (cacheSet emptyCache 5 200, some (5, (200, some (tempConvert 32 unitFahrenheit)))) :=
  ⟨temperature_canonicalization.1 envWrongUnit emptyCache sensorTemp stWrongUnit
      deviceClassTemperature "hPa" rfl rfl rfl rfl rfl,
    temperature_canonicalization.2.1 envFahrenheit emptyCache sensorTemp stFahrenheit
      unitFahrenheit 32 rfl rfl rfl rfl rfl rfl (by decide)⟩

theorem processSensor_ok (env : EntityStates) (s : AnnotatedSensor)
    (h : attrsPresent env s) (c : Cache) :
    ∃ r, processSensor env c s = .ok r := by
  cases hst : statesGet env s.entity_id with
  | none => exact ⟨(c, none), by simp [processSensor, hst]⟩
  | some st =>
    obtain ⟨hdcP, hunitP⟩ := h st hst
    obtain ⟨dc, hdc⟩ := Option.isSome_iff_exists.mp hdcP
    rcases hse : shouldEmit c s.sensor_id st.last_reported with ⟨b, c2⟩
    by_cases hne : dc = deviceClassFor s.measurement_type
    · cases hmt : s.measurement_type with
      | ambientTemperature =>
        subst hne
        rw [hmt] at hdc
        obtain ⟨u, hu⟩ := Option.isSome_iff_exists.mp (hunitP hmt)
        by_cases hcu : u ∈ tempUnits
        · cases hv : rawValue st.state <;> cases b <;>
            simp [processSensor, hst, hdc, hmt, deviceClassFor, hu, hcu, hv, hse]
        · simp [processSensor, hst, hdc, hmt, deviceClassFor, hu, hcu]
      | relativeHumidity =>
        subst hne
        rw [hmt] at hdc
        cases b <;>
          simp [processSensor, hst, hdc, hmt, deviceClassFor, deviceClassHumidity,
            deviceClassTemperature, hse]
    · simp [processSensor, hst, hdc, hne]

theorem getUpdatesAux_ok (env : EntityStates) (l : List AnnotatedSensor)
    (h : ∀ x ∈ l, attrsPresent env x) :
    ∀ c d, ∃ r, getUpdatesAux env l c d = .ok r := by
  induction l with
  | nil => exact fun c d => ⟨(d, c), rfl⟩
  | cons s rest ih =>
    intro c d
    obtain ⟨⟨c2, entry⟩, hps⟩ := processSensor_ok env s (h s (by simp)) c
    cases entry with
    | none =>
      obtain ⟨r, hr⟩ := ih (fun x hx => h x (by simp [hx])) c2 d
      exact ⟨r, by simp [getUpdatesAux, hps, hr]⟩
    | some kv =>
      obtain ⟨k, v⟩ := kv
      obtain ⟨r, hr⟩ := ih (fun x hx => h x (by simp [hx])) c2 (dictInsert d k v)
      exact ⟨r, by simp [getUpdatesAux, hps, hr]⟩

theorem getUpdatesAux_skip (env : EntityStates) (s : AnnotatedSensor)
    (hfail : ∀ c, processSensor env c s = .ok (c, none)) (l1 l2 : List AnnotatedSensor) :
    ∀ c d, getUpdatesAux env (l1 ++ s :: l2) c d = getUpdatesAux env (l1 ++ l2) c d := by
  induction l1 with
  | nil =>
    intro c d
    simp [getUpdatesAux, hfail c]
  | cons x rest ih =>
    intro c d
    rcases hx : processSensor env c x with e | ⟨c2, entry⟩
    · simp [getUpdatesAux, hx]
    · cases entry with
      | none => simp [getUpdatesAux, hx, ih]
      | some kv =>
        obtain ⟨k, v⟩ := kv
        simp [getUpdatesAux, hx, ih]

/-- Claim C4 (amended): provided every live state carries the attribute keys
`_get_updates` reads (device class, and unit of measurement for
ambient-temperature sensors), one sensor that is skipped — unreadable state,
wrong device class or wrong unit — is merely omitted: the batch equals the batch
over the remaining sensors, and batch production never aborts. -/
theorem single_sensor_failure_isolated (env : EntityStates) (l1 l2 : List AnnotatedSensor)
    (s : AnnotatedSensor)
    (hkeys : ∀ x ∈ l1 ++ l2, attrsPresent env x)
    (hfail : ∀ c, processSensor env c s = .ok (c, none)) (cache : Cache) :
    getUpdates env (l1 ++ s :: l2) cache = getUpdates env (l1 ++ l2) cache ∧
    ∃ r, getUpdates env (l1 ++ l2) cache = .ok r :=
  ⟨getUpdatesAux_skip env s hfail l1 l2 cache [],
    getUpdatesAux_ok env (l1 ++ l2) hkeys cache []⟩

theorem single_sensor_failure_isolated_witness :
    getUpdates envTwoSensors [sensorGood, sensorMissing] emptyCache =
      getUpdates envTwoSensors [sensorGood] emptyCache ∧
    ∃ r, getUpdates envTwoSensors [sensorGood] emptyCache = .ok r := by
  have hkeys : ∀ x ∈ [sensorGood] ++ ([] : List AnnotatedSensor),
      attrsPresent envTwoSensors x := by
    intro x hx
    simp only [List.append_nil, List.mem_singleton] at hx
    subst hx
    intro st hst
    have hst' : (some stGood : Option HAState) = some st := hst
    cases hst'
    decide
  exact single_sensor_failure_isolated envTwoSensors [sensorGood] [] sensorMissing hkeys
    (fun c => rfl) emptyCache

/-- Claim C4 counterexample: with two configured sensors of which the second has
a state whose attribute dictionary is empty, `_get_updates` raises `KeyError`
and aborts the whole batch instead of returning the other sensor's update. -/
theorem batch_abort_on_missing_attribute :
    getUpdates envTwoSensors [sensorGood, sensorBad] emptyCache = .error attrDeviceClass ∧
    getUpdates envTwoSensors [sensorGood] emptyCache =
      .ok ([(1, (100, some 50))], [(1, 100)]) :=
  ⟨rfl, rfl⟩

/-! ### Helper lemmas about the reconciliation diff -/

theorem computeDiff_eq (s : List AnnotatedSensor) (d : MeasurementType → List String) :
    computeDiff s d =
      (newFor s .ambientTemperature (d .ambientTemperature) ++
          newFor s .relativeHumidity (d .relativeHumidity),
        orphanFor s .ambientTemperature (d .ambientTemperature) ++
          orphanFor s .relativeHumidity (d .relativeHumidity)) := by
  simp [computeDiff, MeasurementType.all]

theorem eraseFold_eq_filterMap (orphans : List (Option AnnotatedSensor))
    (s : List AnnotatedSensor) :
    eraseFold s orphans = (orphans.filterMap id).foldl List.erase s := by
  induction orphans generalizing s with
  | nil => rfl
  | cons o rest ih =>
    cases o with
    | none => simpa [eraseFold, List.filterMap_cons] using ih s
    | some a => simpa [eraseFold, List.filterMap_cons] using ih (s.erase a)

theorem count_foldl_erase {α : Type} [DecidableEq α] (L : List α) (E : List α) (a : α) :
    (L.foldl List.erase E).count a = E.count a - L.count a := by
  induction L generalizing E with
  | nil => simp
  | cons b L ih =>
    rw [List.foldl_cons, ih, List.count_erase, List.count_cons]
    cases h : (b == a)
    · simp [h]
    · simp [h]
      omega

theorem orphanFor_filterMap (s : List AnnotatedSensor) (mt : MeasurementType)
    (eids : List String) :
    (orphanFor s mt eids).filterMap id =
      s.filter (fun x => (x.measurement_type == mt) && !entityIdMem x.entity_id eids) := by
  induction s with
  | nil => rfl
  | cons a s ih =>
    simp only [orphanFor, List.map_cons, List.filterMap_cons, List.filter_cons] at ih ⊢
    by_cases h1 : a.measurement_type = mt
    · by_cases h2 : entityIdMem a.entity_id eids = true
      · simp [h1, h2]
        simpa using ih
      · simp only [Bool.not_eq_true] at h2
        simp [h1, h2]
        simpa using ih
    · simp [h1]
      simpa using ih

theorem count_filter_eq {α : Type} [DecidableEq α] (p : α → Bool) (l : List α) (a : α) :
    (l.filter p).count a = if p a then l.count a else 0 := by
  by_cases h : p a = true
  · simp [h]
  · simp only [Bool.not_eq_true] at h
    simp only [h, if_false, Bool.false_eq_true]
    rw [List.count_eq_zero]
    intro hmem
    have := List.of_mem_filter hmem
    simp [h] at this

theorem count_orphans (s : List AnnotatedSensor) (d : MeasurementType → List String)
    (a : AnnotatedSensor) :
    ((computeDiff s d).2.filterMap id).count a =
      if isOrphan d a then s.count a else 0 := by
  rw [computeDiff_eq]
  simp only [List.filterMap_append, List.count_append, orphanFor_filterMap, count_filter_eq]
  cases hmt : a.measurement_type with
  | ambientTemperature => simp [isOrphan, hmt]
  | relativeHumidity => simp [isOrphan, hmt]

theorem count_eraseFold (s : List AnnotatedSensor) (d : MeasurementType → List String)
    (a : AnnotatedSensor) :
    (eraseFold s (computeDiff s d).2).count a =
      if isOrphan d a then 0 else s.count a := by
  rw [eraseFold_eq_filterMap, count_foldl_erase, count_orphans]
  by_cases h : isOrphan d a = true
  · simp [h]
  · simp only [Bool.not_eq_true] at h
    simp [h]

theorem mem_eraseFold (s : List AnnotatedSensor) (d : MeasurementType → List String)
    (a : AnnotatedSensor) :
    a ∈ eraseFold s (computeDiff s d).2 ↔ a ∈ s ∧ isOrphan d a = false := by
  rw [← List.count_pos_iff, count_eraseFold]
  by_cases h : isOrphan d a = true
  · simp [h]
  · simp only [Bool.not_eq_true] at h
    simp [h, List.count_pos_iff]

theorem eraseFold_sublist (orphans : List (Option AnnotatedSensor))
    (s : List AnnotatedSensor) :
    (eraseFold s orphans).Sublist s := by
  induction orphans generalizing s with
  | nil => exact List.Sublist.refl s
  | cons o rest ih =>
    cases o with
    | none => exact ih s
    | some a =>
      exact ((ih (s.erase a)).trans (List.erase_sublist a s))

theorem entityUsed_iff (l : List AnnotatedSensor) (mt : MeasurementType) (eid : String) :
    entityUsed l mt eid = true ↔
      ∃ x ∈ l, x.measurement_type = mt ∧ x.entity_id = some eid := by
  simp [entityUsed, List.any_eq_true]

theorem mem_newFor {mt' mt : MeasurementType} {eid : String} (s : List AnnotatedSensor)
    (eids : List String) :
    (mt', eid) ∈ newFor s mt eids ↔
      mt' = mt ∧ eid ∈ eids ∧ entityUsed s mt eid = false := by
  simp only [newFor, List.mem_map, List.mem_filter]
  constructor
  · rintro ⟨e, ⟨he, hu⟩, heq⟩
    obtain ⟨rfl, rfl⟩ := Prod.mk.injEq .. ▸ And.intro (congrArg Prod.fst heq) (congrArg Prod.snd heq)
    exact ⟨rfl, he, by simpa using hu⟩
  · rintro ⟨rfl, he, hu⟩
    exact ⟨eid, ⟨he, by simp [hu]⟩, rfl⟩

/-- Claim C1: reconciliation is idempotent — applying the diff computed by the
reconciliation step of `create` to an existing sensor list and reconciling the
result again with the same desired mapping yields an empty set of additions and
an empty set of removals. -/
theorem reconcile_idempotent (s : List AnnotatedSensor) (d : MeasurementType → List String) :
    (computeDiff (reconcile s d) d).1 = [] ∧
    (computeDiff (reconcile s d) d).2.filterMap id = [] := by
  have used_after : ∀ mt eid, eid ∈ d mt → entityUsed (reconcile s d) mt eid = true := by
    intro mt eid hmem
    rw [entityUsed_iff]
    by_cases h : entityUsed s mt eid = true
    · obtain ⟨x, hx, hxmt, hxe⟩ := (entityUsed_iff s mt eid).mp h
      refine ⟨x, ?_, hxmt, hxe⟩
      rw [reconcile, applyDiff, List.mem_append]
      left
      rw [mem_eraseFold]
      refine ⟨hx, ?_⟩
      have hc : (d mt).contains eid = true := by simpa using hmem
      simp only [isOrphan, entityIdMem, hxe, hxmt, hc]
      rfl
    · simp only [Bool.not_eq_true] at h
      refine ⟨⟨mt, 0, some eid⟩, ?_, rfl, rfl⟩
      rw [reconcile, applyDiff, List.mem_append]
      right
      rw [List.mem_map]
      refine ⟨(mt, eid), ?_, rfl⟩
      rw [computeDiff_eq]
      cases mt with
      | ambientTemperature =>
        simp only [List.mem_append]
        exact Or.inl ((mem_newFor s _).mpr ⟨rfl, hmem, h⟩)
      | relativeHumidity =>
        simp only [List.mem_append]
        exact Or.inr ((mem_newFor s _).mpr ⟨rfl, hmem, h⟩)
  have not_orphan_after : ∀ x ∈ reconcile s d, isOrphan d x = false := by
    intro x hx
    rw [reconcile, applyDiff, List.mem_append] at hx
    rcases hx with hx | hx
    · exact ((mem_eraseFold s d x).mp hx).2
    · rw [List.mem_map] at hx
      obtain ⟨⟨mt1, eid⟩, hp, rfl⟩ := hx
      rw [computeDiff_eq] at hp
      simp only [List.mem_append] at hp
      have heid : eid ∈ d mt1 := by
        rcases hp with hp | hp
        · obtain ⟨rfl, he, _⟩ := (mem_newFor s _).mp hp
          exact he
        · obtain ⟨rfl, he, _⟩ := (mem_newFor s _).mp hp
          exact he
      have hc : (d mt1).contains eid = true := by simpa using heid
      show (!((d mt1).contains eid)) = false
      rw [hc]
      rfl
  constructor
  · have h1 : ∀ mt, newFor (reconcile s d) mt (d mt) = [] := by
      intro mt
      rw [newFor]
      have hf : (d mt).filter (fun eid => !entityUsed (reconcile s d) mt eid) = [] := by
        rw [List.filter_eq_nil_iff]
        intro eid hmem
        simp [used_after mt eid hmem]
      rw [hf]
      rfl
    rw [computeDiff_eq]
    simp [h1]
  · have h2 : ∀ mt, (reconcile s d).filter
        (fun x => (x.measurement_type == mt) && !entityIdMem x.entity_id (d mt)) = [] := by
      intro mt
      rw [List.filter_eq_nil_iff]
      intro x hx
      have hno := not_orphan_after x hx
      by_cases hxmt : x.measurement_type = mt
      · simp only [isOrphan] at hno
        rw [hxmt] at hno
        rw [Bool.not_eq_false' ] at hno
        simp [hxmt, hno]
      · simp [hxmt]
    rw [computeDiff_eq]
    simp only [List.filterMap_append, orphanFor_filterMap]
    rw [List.append_eq_nil]
    exact ⟨h2 .ambientTemperature, h2 .relativeHumidity⟩

theorem nodup_newKeys (s : List AnnotatedSensor) (d : MeasurementType → List String)
    (hd : ∀ mt, (d mt).Nodup) :
    ((computeDiff s d).1.map (fun p => (p.1, (some p.2 : Option String)))).Nodup := by
  rw [computeDiff_eq]
  rw [List.map_append, List.nodup_append]
  refine ⟨?_, ?_, ?_⟩
  · rw [newFor, List.map_map]
    exact ((hd _).filter _).map (fun a b h => Option.some.inj (congrArg Prod.snd h))
  · rw [newFor, List.map_map]
    exact ((hd _).filter _).map (fun a b h => Option.some.inj (congrArg Prod.snd h))
  · intro k hk1 hk2
    rw [newFor, List.map_map, List.mem_map] at hk1 hk2
    obtain ⟨e1, _, rfl⟩ := hk1
    obtain ⟨e2, _, h2⟩ := hk2
    have hmt : MeasurementType.relativeHumidity = MeasurementType.ambientTemperature :=
      congrArg Prod.fst h2
    exact MeasurementType.noConfusion hmt

/-- Claim C2: for an existing sensor list with at most one sensor per
(measurementType, entityId) pair and a desired mapping with duplicate-free
entity-id sets, the reconciliation step never adds a pair already present,
never removes a sensor whose entity id is still desired under its measurement
type, and the resulting sensor list still has at most one entry per pair. -/
theorem reconcile_preserves_uniqueness (s : List AnnotatedSensor)
    (d : MeasurementType → List String)
    (hs : (s.map sensorKey).Nodup) (hd : ∀ mt, (d mt).Nodup) :
    (∀ p ∈ (computeDiff s d).1, entityUsed s p.1 p.2 = false) ∧
    (∀ x ∈ (computeDiff s d).2.filterMap id,
      entityIdMem x.entity_id (d x.measurement_type) = false) ∧
    ((reconcile s d).map sensorKey).Nodup := by
  have c1 : ∀ p ∈ (computeDiff s d).1, entityUsed s p.1 p.2 = false := by
    rintro ⟨mt1, eid⟩ hp
    rw [computeDiff_eq] at hp
    simp only [List.mem_append] at hp
    rcases hp with hp | hp
    · obtain ⟨rfl, _, hu⟩ := (mem_newFor s _).mp hp
      exact hu
    · obtain ⟨rfl, _, hu⟩ := (mem_newFor s _).mp hp
      exact hu
  have c2 : ∀ x ∈ (computeDiff s d).2.filterMap id,
      entityIdMem x.entity_id (d x.measurement_type) = false := by
    intro x hx
    rw [computeDiff_eq] at hx
    simp only [List.filterMap_append, List.mem_append, orphanFor_filterMap] at hx
    rcases hx with hx | hx <;>
    · obtain ⟨hmem, hcond⟩ := List.mem_filter.mp hx
      simp only [Bool.and_eq_true, beq_iff_eq] at hcond
      obtain ⟨hmt, hmem2⟩ := hcond
      rw [hmt]
      simpa using hmem2
  refine ⟨c1, c2, ?_⟩
  rw [reconcile, applyDiff, List.map_append, List.nodup_append]
  refine ⟨?_, ?_, ?_⟩
  · exact List.Nodup.sublist ((eraseFold_sublist _ s).map sensorKey) hs
  · rw [List.map_map]
    exact nodup_newKeys s d hd
  · intro k hk1 hk2
    rw [List.map_map, List.mem_map] at hk2
    obtain ⟨⟨mt1, eid⟩, hp, rfl⟩ := hk2
    have hu : entityUsed s mt1 eid = false := c1 _ hp
    rw [List.mem_map] at hk1
    obtain ⟨x, hx, hkey⟩ := hk1
    have hxs : x ∈ s := (eraseFold_sublist _ s).subset hx
    have hxmt : x.measurement_type = mt1 := congrArg Prod.fst hkey
    have hxe : x.entity_id = some eid := congrArg Prod.snd hkey
    have htrue : entityUsed s mt1 eid = true :=
      (entityUsed_iff s mt1 eid).mpr ⟨x, hxs, hxmt, hxe⟩
    rw [htrue] at hu
    cases hu

theorem reconcile_preserves_uniqueness_witness :
    ((reconcile
        [{ measurement_type := .ambientTemperature, sensor_id := 5,
           entity_id := some "sensor.a" }]
        (optionsDesired optionsA)).map sensorKey).Nodup :=
  (reconcile_preserves_uniqueness _ _ (by decide)
    (fun mt => by cases mt <;> decide)).2.2
